import Mathlib

/-!
Verification of the resilient model-invocation layer of CVTailor
(`src/utils/gemini_service.py`, with its caller in `src/app.py`).

The Python code is shallowly embedded: module-level mutable state
(`quota_exceeded_models`) becomes an explicit association list threaded
through the functions; the network call `genai.GenerativeModel(name)
.generate_content(prompt).text` is abstracted as an oracle
`gen : String → Except String String` (the prompt is shared across
candidates, so it is absorbed into the oracle); Python string primitives
(`in`, `split`, `replace`, `strip`, `re.findall`) are given explicit
executable definitions over `List Char` with Python's semantics.
Timestamps are natural-number seconds.
-/

/-- Python's substring test `pat in s` over character lists: true iff `pat`
occurs contiguously in the list. -/
def pyIn (pat : List Char) : List Char → Bool
  | [] => pat.isEmpty
  | c :: cs => pat.isPrefixOf (c :: cs) || pyIn pat cs

/-- Python's `s.split(sep)[0]` for non-empty `sep`: the characters before the
first occurrence of `sep` (the whole list when `sep` does not occur). -/
def beforeFirst (sep : List Char) : List Char → List Char
  | [] => []
  | c :: cs => if sep.isPrefixOf (c :: cs) then [] else c :: beforeFirst sep cs

/-- The characters after the first occurrence of `sep` (empty when `sep` does
not occur). Python's `s.split(sep)[1]` (used in the source only under an
`in` guard) is `beforeFirst sep (afterFirst sep s)`: the segment between the
first and second occurrences of `sep`. -/
def afterFirst (sep : List Char) : List Char → List Char
  | [] => []
  | c :: cs => if sep.isPrefixOf (c :: cs) then (c :: cs).drop sep.length else afterFirst sep cs

/-- Python's `s.replace(pat, rep)` for non-empty `pat`: replace each
non-overlapping occurrence, scanning left to right. The `fuel` argument (one
unit per character examined) makes the recursion structural; `fuel =
s.length` always suffices because each step consumes at least one character. -/
def pyReplaceAux (pat rep : List Char) : Nat → List Char → List Char
  | _, [] => []
  | 0, l => l
  | fuel + 1, c :: cs =>
      if pat.isPrefixOf (c :: cs) then
        rep ++ pyReplaceAux pat rep fuel (cs.drop (pat.length - 1))
      else
        c :: pyReplaceAux pat rep fuel cs

/-- String-level wrapper for Python's `s.replace(pat, rep)`. -/
def pyReplace (s pat rep : String) : String :=
  String.mk (pyReplaceAux pat.data rep.data s.data.length s.data)

/-- String-level wrapper for Python's `pat in s`. -/
def pyContains (s pat : String) : Bool := pyIn pat.data s.data

/-- String-level wrapper for Python's `s.split(sep)[0]`. -/
def pySplitGet0 (s sep : String) : String := String.mk (beforeFirst sep.data s.data)

/-- String-level wrapper for Python's `s.split(sep)[1]`, meaningful when
`sep` occurs in `s` (every use in the source is guarded by `sep in s`). -/
def pySplitGet1 (s sep : String) : String :=
  String.mk (beforeFirst sep.data (afterFirst sep.data s.data))

/-- Python's `s.strip()`: drop whitespace from both ends. (Python also strips
a few extra control characters and Unicode spaces; no claim depends on
those.) -/
def pyStrip (s : String) : String :=
  String.mk (((s.data.dropWhile Char.isWhitespace).reverse.dropWhile Char.isWhitespace).reverse)

/-- The maximal run of decimal digits starting the list. -/
def takeDigits : List Char → List Char
  | [] => []
  | c :: cs => if c.isDigit then c :: takeDigits cs else []

/-- Python's `re.findall(r'\d+', s)[0]` as an `Option`: the first maximal
contiguous run of decimal digits in `s`, or `none` when `s` has no digit. -/
def firstDigitRun : List Char → Option (List Char)
  | [] => none
  | c :: cs => if c.isDigit then some (c :: takeDigits cs) else firstDigitRun cs

/-! ## Quota Tracker (`quota_exceeded_models`, `is_quota_error`,
`is_model_available` — src/utils/gemini_service.py lines 14–48) -/

/-- The module-level dict `quota_exceeded_models` mapping a model name to the
timestamp when its quota failure was observed, embedded as an association
list (lookup finds the most recent write first). -/
abbrev QuotaMap := List (String × Nat)

/-- The dict assignment `quota_exceeded_models[model_name] = time.time()`
(line 252): store the current timestamp for the model, overwriting any prior
record. -/
def recordQuotaFailure (quota : QuotaMap) (model_name : String) (now : Nat) : QuotaMap :=
  (model_name, now) :: quota.filter (fun p => p.1 != model_name)

/-- Python's `s.lower()` over the character data. `Char.toLower` lowercases
exactly the ASCII letters, as Python does for ASCII text (the quota keywords
are all ASCII). -/
def pyLower (s : String) : String := String.mk (s.data.map Char.toLower)

/-- Lines 23–30: the keyword list of `is_quota_error`. -/
def quota_keywords : List String :=
  ["quota", "rate limit", "exceeded", "too many requests", "429", "resource exhausted"]

/-- Lines 18–31: an error message is a quota error iff its lowercasing
contains one of the six keywords as a substring. -/
def is_quota_error (error_message : String) : Bool :=
  let error_str := pyLower error_message
  quota_keywords.any (fun keyword => pyContains error_str keyword)

/-- Lines 33–48, `is_model_available`: returns whether the model may be
tried, together with the updated quota map (the source deletes a record
older than 300 seconds as it answers). -/
def is_model_available (quota : QuotaMap) (now : Nat) (model_name : String) :
    Bool × QuotaMap :=
  match quota.lookup model_name with
  | none => (true, quota)
  | some ts =>
      if now - ts > 300 then
        (true, quota.filter (fun p => p.1 != model_name))
      else
        (false, quota)

/-- The availability answer alone. The deletion performed by
`is_model_available` only removes an already-expired record, so it never
changes a later availability answer (`is_model_available_prune_irrelevant`
below); the candidate-list code is therefore embedded with this pure
predicate. -/
def is_model_available_b (quota : QuotaMap) (now : Nat) (model_name : String) : Bool :=
  (is_model_available quota now model_name).1

theorem lookup_filter_ne (quota : QuotaMap) (m m' : String) (h : m' ≠ m) :
    (quota.filter (fun p => p.1 != m)).lookup m' = quota.lookup m' := by
  induction quota with
  | nil => rfl
  | cons p rest ih =>
      by_cases hp : p.1 = m
      · rw [show (p :: rest).filter (fun p => p.1 != m) = rest.filter (fun p => p.1 != m) by
          simp [List.filter_cons, hp]]
        rw [ih]
        simp only [List.lookup]
        rw [show (m' == p.1) = false by simp [hp]; exact h]
      · rw [show (p :: rest).filter (fun p => p.1 != m) = p :: rest.filter (fun p => p.1 != m) by
          simp [List.filter_cons, hp]]
        simp only [List.lookup]
        cases m' == p.1 <;> simp [ih]

theorem lookup_filter_self (quota : QuotaMap) (m : String) :
    (quota.filter (fun p => p.1 != m)).lookup m = none := by
  induction quota with
  | nil => rfl
  | cons p rest ih =>
      by_cases hp : p.1 = m
      · rw [show (p :: rest).filter (fun p => p.1 != m) = rest.filter (fun p => p.1 != m) by
          simp [List.filter_cons, hp]]
        exact ih
      · rw [show (p :: rest).filter (fun p => p.1 != m) = p :: rest.filter (fun p => p.1 != m) by
          simp [List.filter_cons, hp]]
        simp only [List.lookup]
        rw [show (m == p.1) = false by simp; exact fun hc => hp hc.symm]
        exact ih

theorem is_model_available_prune_irrelevant (quota : QuotaMap) (now : Nat) (m m' : String) :
    is_model_available_b (is_model_available quota now m).2 now m' =
      is_model_available_b quota now m' := by
  unfold is_model_available_b is_model_available
  cases hq : quota.lookup m with
  | none => rfl
  | some ts =>
      by_cases ht : now - ts > 300
      · simp only [ht, if_pos]
        by_cases hm : m' = m
        · subst hm
          rw [lookup_filter_self, hq]
          simp [ht]
        · rw [lookup_filter_ne quota m m' hm]
          cases quota.lookup m' with
          | none => rfl
          | some ts' => by_cases ht' : now - ts' > 300 <;> simp [ht']
      · simp [ht]

/-! ## Backend Catalog (`get_available_models` and the candidate-list
construction in `modify_cv_with_gemini`, lines 50–116) -/

/-- A model record returned by the directory service `genai.list_models()`. -/
structure ApiModel where
  name : String
  supported_generation_methods : List String
deriving Repr, DecidableEq

/-- Lines 56–65: keep, in directory order, the names of listed models that
support `generateContent` and are currently available. -/
def available_from (quota : QuotaMap) (now : Nat) : List ApiModel → List String
  | [] => []
  | model :: rest =>
      if model.supported_generation_methods.contains "generateContent"
          && is_model_available_b quota now model.name then
        model.name :: available_from quota now rest
      else
        available_from quota now rest

/-- Lines 50–72, `get_available_models`: a failing directory call
(`listing = none`) collapses to the empty list. -/
def get_available_models (quota : QuotaMap) (now : Nat)
    (listing : Option (List ApiModel)) : List String :=
  match listing with
  | none => []
  | some models => available_from quota now models

/-- Lines 86–93: the fixed preference list of model names. -/
def model_names_to_try : List String :=
  ["gemini-2.5-flash",
   "gemini-2.5-flash-lite",
   "gemini-2.5-pro",
   "gemini-3-flash-preview",
   "gemini-3-pro-preview",
   "gemini-2.0-flash"]

/-- Line 106: `model.replace('models/', '')`. -/
def model_short (model : String) : String := pyReplace model "models/" ""

/-- Lines 104–108: for each discovered model in order, strip the `models/`
prefix and, when the result is not already present, insert it at index 0 of
the current list. -/
def insertApiModels (lst : List String) : List String → List String
  | [] => lst
  | model :: rest =>
      let short := model_short model
      insertApiModels (if lst.contains short then lst else short :: lst) rest

/-- Lines 95–108 as one function (spec §4.2 `buildCandidateList`): filter the
fixed list by quota eligibility, then merge in the discovered models. -/
def buildCandidateList (quota : QuotaMap) (now : Nat)
    (listing : Option (List ApiModel)) : List String :=
  let fixedFiltered := model_names_to_try.filter (fun m => is_model_available_b quota now m)
  insertApiModels fixedFiltered (get_available_models quota now listing)

/-- The discovered identifiers that actually get inserted by
`insertApiModels`, in discovery order: the stripped name of each discovered
model that is neither in the base list nor the stripped name of an earlier
kept discovered model. Written to state how the merge treats discovery
order. -/
def newShorts (lst : List String) : List String → List String
  | [] => []
  | model :: rest =>
      let short := model_short model
      if lst.contains short then newShorts lst rest
      else short :: newShorts (short :: lst) rest

/-- Discovered models whose stripped name duplicates that of an earlier
discovered model are dropped; the first occurrence is kept. Used to state
that only the first occurrence of a repeated discovered identifier matters
to the merge. -/
def dedupFirstShorts (seen : List String) : List String → List String
  | [] => []
  | model :: rest =>
      let short := model_short model
      if seen.contains short then dedupFirstShorts seen rest
      else model :: dedupFirstShorts (short :: seen) rest

theorem insertApiModels_eq_reverse_newShorts (api : List String) :
    ∀ lst, insertApiModels lst api = (newShorts lst api).reverse ++ lst := by
  induction api with
  | nil => intro lst; simp [insertApiModels, newShorts]
  | cons model rest ih =>
      intro lst
      simp only [insertApiModels, newShorts]
      by_cases h : lst.contains (model_short model)
      · simp only [h, if_true, ih]
      · simp only [h]
        rw [if_neg (fun hc => Bool.false_ne_true hc), if_neg (fun hc => Bool.false_ne_true hc)]
        rw [ih (model_short model :: lst)]
        simp [List.reverse_cons, List.append_assoc]

/-! ## Rotation Controller (`modify_cv_with_gemini`, lines 74–278) -/

/-- The final typed output of a successful tailoring call (the dict built at
lines 236–241, with the summary defaulted at line 240). -/
structure TailorResult where
  modified_cv : String
  original_match_score : String
  modified_match_score : String
  changes_summary : String
deriving Repr, DecidableEq

/-- Line 240: the fixed generic sentence used when the parsed summary is
empty. -/
def DEFAULT_SUMMARY : String :=
  "CV optimized for job requirements with enhanced keywords and relevant experience highlighting."

/-- Line 5 of the error path: Python renders `None` as the string "None"
inside an f-string; `last_error` is `None` only when no candidate was ever
attempted. -/
def pyOptionStr : Option String → String
  | none => "None"
  | some s => s

/-- Line 276: the message raised when every candidate failed. -/
def exhaustion_message (models_tried : Nat) (last_error : Option String) : String :=
  "Unable to find working Gemini model after trying " ++ toString models_tried ++
    " models. Last error: " ++ pyOptionStr last_error

/-- Line 111: the message raised when the candidate list is empty. -/
def NO_BACKENDS_MESSAGE : String :=
  "All models have hit quota limits. Please wait a few minutes and try again, or upgrade your API plan."

/-- The terminal outcome of `modify_cv_with_gemini`: a parsed result, or one
of the two distinguished exceptions (lines 111 and 278). -/
inductive TailorOutcome where
  | ok (result : TailorResult)
  | noBackendsAvailable (message : String)
  | allBackendsFailed (message : String)
deriving Repr, DecidableEq

/-! ## Response Parser (lines 180–241 of `modify_cv_with_gemini`) -/

/-- Lines 186–222: anchor-based extraction of the four raw sections
`(modified_cv, original_match_score, modified_match_score, changes_summary)`
from the response text, before numeric cleanup. Each `s.split(m)[k]` of the
source is rendered with `pySplitGet0`/`pySplitGet1` (every `[1]` access is
guarded by the corresponding `in` test, exactly as in the source). -/
def parse_sections (response_text : String) : String × String × String × String :=
  if pyContains response_text "ORIGINAL_MATCH_SCORE:" then
    let parts := pySplitGet1 response_text "ORIGINAL_MATCH_SCORE:"
    if pyContains parts "MODIFIED_CV:" then
      let original_match_score := pyStrip (pySplitGet0 parts "MODIFIED_CV:")
      let remaining := pySplitGet1 parts "MODIFIED_CV:"
      if pyContains remaining "MODIFIED_MATCH_SCORE:" then
        let modified_cv := pyStrip (pySplitGet0 remaining "MODIFIED_MATCH_SCORE:")
        let remaining2 := pySplitGet1 remaining "MODIFIED_MATCH_SCORE:"
        if pyContains remaining2 "CHANGES_SUMMARY:" then
          (modified_cv, original_match_score,
           pyStrip (pySplitGet0 remaining2 "CHANGES_SUMMARY:"),
           pyStrip (pySplitGet1 remaining2 "CHANGES_SUMMARY:"))
        else
          (modified_cv, original_match_score, pyStrip remaining2, "")
      else
        (pyStrip remaining, original_match_score, "N/A", "")
    else
      ("", "N/A", "N/A", "")
  else
    if pyContains response_text "MODIFIED_CV:" then
      let parts := pySplitGet1 response_text "MODIFIED_CV:"
      if pyContains parts "MATCH_SCORE:" then
        let modified_cv := pyStrip (pySplitGet0 parts "MATCH_SCORE:")
        let remaining := pySplitGet1 parts "MATCH_SCORE:"
        if pyContains remaining "CHANGES_SUMMARY:" then
          (modified_cv, "N/A",
           pyStrip (pySplitGet0 remaining "CHANGES_SUMMARY:"),
           pyStrip (pySplitGet1 remaining "CHANGES_SUMMARY:"))
        else
          (modified_cv, "N/A", pyStrip remaining, "")
      else
        (pyStrip parts, "N/A", "N/A", "")
    else
      (response_text, "N/A", "N/A", "")

/-- Lines 226–234: `if score and score != "N/A": numbers = re.findall(r'\d+',
score); if numbers: score = numbers[0]`. When the field is empty, the
sentinel, or contains no digit, it is left unchanged. -/
def clean_score (score : String) : String :=
  if score != "" && score != "N/A" then
    match firstDigitRun score.data with
    | some digits => String.mk digits
    | none => score
  else score

/-- Lines 180–241 combined: parse the raw response into the returned record,
cleaning both scores and defaulting an empty summary to the fixed sentence. -/
def parse_gemini_response (response_text : String) : TailorResult :=
  let s := parse_sections response_text
  { modified_cv := s.1
    original_match_score := clean_score s.2.1
    modified_match_score := clean_score s.2.2.1
    changes_summary := if s.2.2.2 != "" then s.2.2.2 else DEFAULT_SUMMARY }

/-- Lines 236–241: the dict literal actually returned to the caller, keys in
source order. -/
def modify_cv_return (r : TailorResult) : List (String × String) :=
  [("modified_cv", r.modified_cv),
   ("original_match_score", r.original_match_score),
   ("modified_match_score", r.modified_match_score),
   ("changes_summary", r.changes_summary)]

/-- Python dict indexing `d[k]`: the stored value, or a `KeyError` (modelled
as `none`) when the key is absent. -/
def dictLookup (d : List (String × String)) (k : String) : Option String :=
  d.lookup k

/-- From `src/app.py` line 124: after a successful tailoring call the
`/process` handler reads `result['match_score']`. -/
def process_reads_match_score (result : List (String × String)) : Option String :=
  dictLookup result "match_score"

/-! ## The rotation loop (lines 164–278) -/

/-- Lines 168–260: try each candidate in order. A successful generation call
returns the parsed response at once; a failing one stores its message in
`last_error`, records a quota failure iff `is_quota_error` matches, and
rotation continues with the next candidate. When the candidates run out, the
exhaustion message of line 276 is raised, carrying the number of models tried
and the last observed error. The quota map is threaded as explicit state. -/
def tryModels (gen : String → Except String String) (now : Nat) :
    QuotaMap → List String → Option String → Nat → TailorOutcome × QuotaMap
  | quota, [], last_error, models_tried =>
      (.allBackendsFailed (exhaustion_message models_tried last_error), quota)
  | quota, model_name :: rest, _last_error, models_tried =>
      match gen model_name with
      | .ok response_text => (.ok (parse_gemini_response response_text), quota)
      | .error e =>
          let quota' := if is_quota_error e then recordQuotaFailure quota model_name now else quota
          tryModels gen now quota' rest (some e) (models_tried + 1)

/-- Lines 74–278, `modify_cv_with_gemini`: build the candidate list (fixed
preference list filtered by quota, discovered models merged in front), fail
with the distinguished no-backends message when it is empty, and otherwise
run the rotation loop. `gen` abstracts one generation call against a named
backend; `listing` is the directory service's answer (`none` = the listing
call raised). -/
def modify_cv_with_gemini (gen : String → Except String String) (now : Nat)
    (quota : QuotaMap) (listing : Option (List ApiModel)) : TailorOutcome × QuotaMap :=
  let candidates := buildCandidateList quota now listing
  if candidates.isEmpty then
    (.noBackendsAvailable NO_BACKENDS_MESSAGE, quota)
  else
    tryModels gen now quota candidates none 0

/-! ## Supporting lemmas -/

theorem pyIn_eq_true_iff (pat : List Char) : ∀ l : List Char, pyIn pat l = true ↔ pat <:+: l := by
  intro l
  induction l with
  | nil =>
      simp only [pyIn, List.isEmpty_iff]
      constructor
      · intro h; simp [h]
      · intro h; exact List.sublist_nil.mp h.sublist
  | cons c cs ih =>
      simp only [pyIn, Bool.or_eq_true, List.isPrefixOf_iff_prefix, ih, List.infix_cons_iff]

theorem pyIn_false_mono (pat l l' : List Char) (hsub : l' <:+: l)
    (h : pyIn pat l = false) : pyIn pat l' = false := by
  cases hx : pyIn pat l' with
  | false => rfl
  | true =>
      have : pyIn pat l = true :=
        (pyIn_eq_true_iff pat l).mpr (((pyIn_eq_true_iff pat l').mp hx).trans hsub)
      rw [this] at h
      exact Bool.noConfusion h

theorem beforeFirst_prefixOf (sep : List Char) : ∀ l, beforeFirst sep l <+: l := by
  intro l
  induction l with
  | nil => simp [beforeFirst]
  | cons c cs ih =>
      simp only [beforeFirst]
      by_cases h : sep.isPrefixOf (c :: cs)
      · simp [h]
      · rw [if_neg h]
        obtain ⟨t, ht⟩ := ih
        exact ⟨t, by simp [ht]⟩

theorem afterFirst_suffix (sep : List Char) : ∀ l, afterFirst sep l <:+ l := by
  intro l
  induction l with
  | nil => simp [afterFirst]
  | cons c cs ih =>
      simp only [afterFirst]
      by_cases h : sep.isPrefixOf (c :: cs)
      · simpa [h] using List.drop_suffix sep.length (c :: cs)
      · simpa [h] using ih.trans (List.suffix_cons c cs)

theorem pyContains_splitGet1_false (s sep pat : String)
    (h : pyContains s pat = false) :
    pyContains (pySplitGet1 s sep) pat = false := by
  unfold pyContains pySplitGet1
  exact pyIn_false_mono pat.data s.data _
    (((beforeFirst_prefixOf sep.data _).isInfix).trans ((afterFirst_suffix sep.data s.data).isInfix))
    h

theorem insertApiModels_nodup (api : List String) :
    ∀ lst : List String, lst.Nodup → (insertApiModels lst api).Nodup := by
  induction api with
  | nil => intro lst h; exact h
  | cons model rest ih =>
      intro lst h
      simp only [insertApiModels]
      by_cases hc : lst.contains (model_short model)
      · rw [if_pos hc]; exact ih lst h
      · rw [if_neg hc]
        refine ih _ (List.nodup_cons.mpr ⟨fun hm => ?_, h⟩)
        exact hc (by simpa [List.contains, List.elem_iff] using hm)

theorem insertApiModels_dedupFirst (api : List String) :
    ∀ (lst seen : List String),
      (∀ s, seen.contains s = true → lst.contains s = true) →
      insertApiModels lst (dedupFirstShorts seen api) = insertApiModels lst api := by
  induction api with
  | nil => intro lst seen _; rfl
  | cons model rest ih =>
      intro lst seen hsub
      simp only [dedupFirstShorts, insertApiModels]
      by_cases hseen : seen.contains (model_short model)
      · rw [if_pos hseen, if_pos (hsub _ hseen), ih lst seen hsub]
      · rw [if_neg hseen]
        simp only [insertApiModels]
        by_cases hlst : lst.contains (model_short model)
        · rw [if_pos hlst]
          refine ih lst _ (fun s hs => ?_)
          rcases (by simpa [List.contains, List.elem_iff] using hs :
              s = model_short model ∨ s ∈ seen) with h1 | h2
          · rw [h1]; exact hlst
          · exact hsub s (by simpa [List.contains, List.elem_iff] using h2)
        · rw [if_neg hlst]
          refine ih _ _ (fun s hs => ?_)
          rcases (by simpa [List.contains, List.elem_iff] using hs :
              s = model_short model ∨ s ∈ seen) with h1 | h2
          · simp [List.contains, List.elem_iff, h1]
          · have := hsub s (by simpa [List.contains, List.elem_iff] using h2)
            simp [List.contains, List.elem_iff] at this ⊢
            exact Or.inr this

theorem tryModels_all_fail (gen : String → Except String String) (now : Nat)
    (errs : String → String) :
    ∀ (cands : List String) (quota : QuotaMap) (le : Option String) (t : Nat)
      (hne : cands ≠ []),
      (∀ m ∈ cands, gen m = .error (errs m)) →
      (tryModels gen now quota cands le t).1 =
        .allBackendsFailed
          (exhaustion_message (t + cands.length) (some (errs (cands.getLast hne)))) := by
  intro cands
  induction cands with
  | nil => intro _ _ _ hne _; exact absurd rfl hne
  | cons m rest ih =>
      intro quota le t hne hfail
      simp only [tryModels, hfail m (List.mem_cons_self m rest)]
      by_cases hrest : rest = []
      · subst hrest
        simp [tryModels, exhaustion_message, pyOptionStr, List.getLast]
      · rw [ih _ (some (errs m)) (t + 1) hrest (fun x hx => hfail x (List.mem_cons_of_mem m hx))]
        rw [List.getLast_cons hrest]
        have hlen : t + 1 + rest.length = t + (m :: rest).length := by
          simp [List.length_cons]
          omega
        rw [hlen]

/-- Helper: the sentinel is left untouched by numeric cleanup. -/
theorem clean_score_NA : clean_score "N/A" = "N/A" := by decide

/-- Helper: the exhaustion message ends with the error it carries, hence
contains it as a substring. -/
theorem pyContains_append_right (x e : String) : pyContains (x ++ e) e = true := by
  unfold pyContains
  rw [String.data_append, pyIn_eq_true_iff]
  exact (List.suffix_append x.data e.data).isInfix

/-! ## Claims -/

/-- C1: Quota cooldown round-trip. Immediately after `recordQuotaFailure`
stores the current timestamp for backend `b`, the availability check answers
false for `b`; once more than 300 seconds have elapsed since the stored
timestamp it answers true again; and it answers true whenever no record for
`b` exists. -/
theorem quota_cooldown_roundtrip (quota : QuotaMap) (b : String) (now later : Nat) :
    is_model_available_b (recordQuotaFailure quota b now) now b = false
    ∧ (later - now > 300 → is_model_available_b (recordQuotaFailure quota b now) later b = true)
    ∧ (quota.lookup b = none → is_model_available_b quota now b = true) := by
  have hl : (recordQuotaFailure quota b now).lookup b = some now := by
    simp [recordQuotaFailure, List.lookup]
  refine ⟨?_, ?_, ?_⟩
  · simp [is_model_available_b, is_model_available, hl]
  · intro h
    simp [is_model_available_b, is_model_available, hl, h]
  · intro h
    simp [is_model_available_b, is_model_available, h]

/-- Witness for C1 at `quota = []`, `b = "m"`, `now = 0`, `later = 301`. -/
theorem quota_cooldown_roundtrip_witness :
    is_model_available_b (recordQuotaFailure [] "m" 0) 0 "m" = false
    ∧ is_model_available_b (recordQuotaFailure [] "m" 0) 301 "m" = true
    ∧ is_model_available_b [] 0 "m" = true :=
  ⟨(quota_cooldown_roundtrip [] "m" 0 301).1,
   (quota_cooldown_roundtrip [] "m" 0 301).2.1 (by decide),
   (quota_cooldown_roundtrip [] "m" 0 301).2.2 rfl⟩

/-- C2: Quota classification and recording. When candidate `m` fails with
message `e`, rotation continues with the remaining candidates, and the quota
map passed on records a fresh timestamp for `m` exactly when
`is_quota_error e` holds — which holds iff the lowercased message contains
at least one of the six quota keywords as a substring; otherwise the map is
passed on unchanged. -/
theorem rotation_quota_classification
    (gen : String → Except String String) (now : Nat) (quota : QuotaMap)
    (m : String) (rest : List String) (le : Option String) (t : Nat)
    (e : String) (h : gen m = .error e) :
    tryModels gen now quota (m :: rest) le t =
      tryModels gen now
        (if is_quota_error e then recordQuotaFailure quota m now else quota)
        rest (some e) (t + 1)
    ∧ (is_quota_error e = true ↔ ∃ k ∈ quota_keywords, pyContains (pyLower e) k = true) := by
  constructor
  · simp only [tryModels, h]
  · simp [is_quota_error, List.any_eq_true]

/-- Witness for C2: a 429 message is recorded; the step equation holds at a
concrete failing candidate. -/
theorem rotation_quota_classification_witness :
    (tryModels (fun _ => .error "HTTP 429: Rate Limit") 7 [] ["m"] none 0 =
      tryModels (fun _ => .error "HTTP 429: Rate Limit") 7
        (if is_quota_error "HTTP 429: Rate Limit" then recordQuotaFailure [] "m" 7 else [])
        [] (some "HTTP 429: Rate Limit") 1)
    ∧ (is_quota_error "HTTP 429: Rate Limit" = true ↔
        ∃ k ∈ quota_keywords, pyContains (pyLower "HTTP 429: Rate Limit") k = true) :=
  rotation_quota_classification (fun _ => .error "HTTP 429: Rate Limit") 7 [] "m" [] none 0
    "HTTP 429: Rate Limit" rfl

/-- C3: Exhaustion diagnostics. For a non-empty candidate list in which
every candidate's generation call fails (any mix of quota and non-quota
errors), the call terminates with the all-backends-failed condition; its
message is built from the last candidate's error alone and contains that
error as a substring. -/
theorem rotation_exhaustion_last_error
    (gen : String → Except String String) (now : Nat) (quota : QuotaMap)
    (listing : Option (List ApiModel)) (errs : String → String)
    (hne : buildCandidateList quota now listing ≠ [])
    (hfail : ∀ m ∈ buildCandidateList quota now listing, gen m = .error (errs m)) :
    (modify_cv_with_gemini gen now quota listing).1 =
      .allBackendsFailed
        (exhaustion_message (buildCandidateList quota now listing).length
          (some (errs ((buildCandidateList quota now listing).getLast hne))))
    ∧ pyContains
        (exhaustion_message (buildCandidateList quota now listing).length
          (some (errs ((buildCandidateList quota now listing).getLast hne))))
        (errs ((buildCandidateList quota now listing).getLast hne)) = true := by
  constructor
  · simp only [modify_cv_with_gemini]
    rw [if_neg (fun hc => hne (List.isEmpty_iff.mp hc))]
    have := tryModels_all_fail gen now errs (buildCandidateList quota now listing)
      quota none 0 hne hfail
    simpa using this
  · exact pyContains_append_right _ _

/-- Witness for C3: with an empty quota map and failed discovery, the
candidate list is the six fixed models; when every call fails, the outcome
carries the last one's error. -/
theorem rotation_exhaustion_last_error_witness :
    (modify_cv_with_gemini (fun m => .error (m ++ "!")) 0 [] none).1 =
      .allBackendsFailed (exhaustion_message 6 (some "gemini-2.0-flash!")) := by
  have h := rotation_exhaustion_last_error (fun m => .error (m ++ "!")) 0 [] none
    (fun m => m ++ "!") (by decide) (fun m _ => rfl)
  rw [h.1]
  decide

/-- C4: Empty-candidate precondition. Whenever the merged candidate list is
empty, the call fails at once with the distinguished no-backends condition,
leaving the quota map untouched — for every generation oracle `gen`, so no
generation call is issued to any backend. -/
theorem empty_candidates_no_backends
    (gen : String → Except String String) (now : Nat) (quota : QuotaMap)
    (listing : Option (List ApiModel))
    (h : buildCandidateList quota now listing = []) :
    modify_cv_with_gemini gen now quota listing =
      (.noBackendsAvailable NO_BACKENDS_MESSAGE, quota) := by
  simp only [modify_cv_with_gemini, h]
  rfl

/-- Witness for C4: all six fixed models recorded 100 seconds ago and a
failing discovery call give an empty candidate list. -/
theorem empty_candidates_no_backends_witness :
    modify_cv_with_gemini (fun _ => .error "boom") 150
      (model_names_to_try.map (fun m => (m, 100))) none =
      (.noBackendsAvailable NO_BACKENDS_MESSAGE, model_names_to_try.map (fun m => (m, 100))) :=
  empty_candidates_no_backends (fun _ => .error "boom") 150
    (model_names_to_try.map (fun m => (m, 100))) none (by decide)

/-- C5 as stated is false: with an empty (here: fully quota-filtered) fixed
list and discovered sequence `models/alpha, models/beta`, the merge yields
`[beta, alpha]`, not the discovery order `[alpha, beta]` — each discovered
model is inserted at index 0, reversing the discovery order. -/
theorem merge_discovery_order_counterexample :
    insertApiModels [] ["models/alpha", "models/beta"] = ["beta", "alpha"]
    ∧ insertApiModels [] ["models/alpha", "models/beta"] ≠ ["alpha", "beta"] := by
  decide

/-- C5 amended: for every fixed preference list and every discovered
sequence, the discovered-and-eligible identifiers not already present are
prepended ahead of the filtered fixed list, but in REVERSE discovery order
(`newShorts` lists the kept stripped identifiers in discovery order, and the
merge produces their reversal in front of the fixed list). -/
theorem merge_prepend_reverse_discovery_order (lst api : List String) :
    insertApiModels lst api = (newShorts lst api).reverse ++ lst :=
  insertApiModels_eq_reverse_newShorts api lst

/-- C6: Candidate-list deduplication. For a duplicate-free base list and any
discovered sequence (overlapping or repeating), the merged candidate list
has no duplicates, and dropping every later duplicate of a discovered
identifier (keeping its first occurrence) leaves the merge unchanged — only
first occurrences matter, and base entries keep their positions. -/
theorem candidate_list_dedup_first_occurrence (lst api : List String)
    (h : lst.Nodup) :
    (insertApiModels lst api).Nodup
    ∧ insertApiModels lst (dedupFirstShorts [] api) = insertApiModels lst api :=
  ⟨insertApiModels_nodup api lst h,
   insertApiModels_dedupFirst api lst [] (fun _ hs => Bool.noConfusion hs)⟩

/-- Witness for C6 with a base entry repeated in discovery and a discovered
identifier repeated both bare and prefixed. -/
theorem candidate_list_dedup_first_occurrence_witness :
    (insertApiModels ["x"] ["models/x", "models/y", "y", "models/y"]).Nodup
    ∧ insertApiModels ["x"] (dedupFirstShorts [] ["models/x", "models/y", "y", "models/y"]) =
        insertApiModels ["x"] ["models/x", "models/y", "y", "models/y"] :=
  candidate_list_dedup_first_occurrence ["x"] ["models/x", "models/y", "y", "models/y"]
    (by decide)

/-- C7 as stated is false on digit-free score sections: a captured substring
`high` is passed through unchanged as the score field, not replaced by the
`N/A` sentinel. -/
theorem score_extraction_counterexample :
    (parse_gemini_response "ORIGINAL_MATCH_SCORE: high MODIFIED_CV: Hello").original_match_score
      = "high"
    ∧ "high" ≠ "N/A" := by
  decide

/-- C7 amended: numeric cleanup of a score field yields the first contiguous
run of decimal digits when one exists; when the field contains no digit it
is passed through unchanged (so it equals the `N/A` sentinel only when the
captured text was itself the sentinel, not for arbitrary digit-free text). -/
theorem score_extraction_amended (s : String) :
    (∀ ds, firstDigitRun s.data = some ds → clean_score s = String.mk ds)
    ∧ (firstDigitRun s.data = none → clean_score s = s) := by
  constructor
  · intro ds hds
    have h1 : s ≠ "" := by
      intro he
      rw [he] at hds
      exact Option.noConfusion hds
    have h2 : s ≠ "N/A" := by
      intro he
      rw [he, show firstDigitRun ("N/A" : String).data = none from by decide] at hds
      exact Option.noConfusion hds
    have hne : (s != "" && s != "N/A") = true := by
      simp [Bool.and_eq_true, bne_iff_ne]
      exact ⟨h1, h2⟩
    simp [clean_score, hne, hds]
  · intro hnone
    by_cases hc : (s != "" && s != "N/A") = true
    · simp [clean_score, hc, hnone]
    · simp only [clean_score]
      rw [if_neg hc]

/-- Witness for C7: digits are extracted from `around 85%`; digit-free
`high` passes through. -/
theorem score_extraction_amended_witness :
    clean_score "around 85%" = String.mk ['8', '5']
    ∧ clean_score "high" = "high" :=
  ⟨(score_extraction_amended "around 85%").1 ['8', '5'] (by decide),
   (score_extraction_amended "high").2 (by decide)⟩

/-- C8: No-marker total fallback. When the raw response contains neither the
`ORIGINAL_MATCH_SCORE:` marker nor the `MODIFIED_CV:` marker, parsing
succeeds and yields the entire raw text as the document, both scores equal
to the sentinel, and the fixed default summary sentence. -/
theorem parse_no_markers_total_fallback (text : String)
    (h1 : pyContains text "ORIGINAL_MATCH_SCORE:" = false)
    (h2 : pyContains text "MODIFIED_CV:" = false) :
    parse_gemini_response text =
      { modified_cv := text
        original_match_score := "N/A"
        modified_match_score := "N/A"
        changes_summary := DEFAULT_SUMMARY } := by
  have e1 : ¬ (pyContains text "ORIGINAL_MATCH_SCORE:" = true) := by
    rw [h1]; exact Bool.false_ne_true
  have e2 : ¬ (pyContains text "MODIFIED_CV:" = true) := by
    rw [h2]; exact Bool.false_ne_true
  simp only [parse_gemini_response, parse_sections]
  rw [if_neg e1, if_neg e2]
  simp [clean_score_NA]

/-- Witness for C8 on the raw text `just some text`. -/
theorem parse_no_markers_total_fallback_witness :
    parse_gemini_response "just some text" =
      { modified_cv := "just some text"
        original_match_score := "N/A"
        modified_match_score := "N/A"
        changes_summary := DEFAULT_SUMMARY } :=
  parse_no_markers_total_fallback "just some text" (by decide) (by decide)

/-- C9: Partial full-format parse loses the document. When the raw response
contains the `ORIGINAL_MATCH_SCORE:` marker but not the `MODIFIED_CV:`
marker, the parsed document is the empty string, both scores are the
sentinel, and the summary is defaulted — the raw text and everything after
the score marker are discarded. -/
theorem parse_score_marker_only_discards (text : String)
    (h1 : pyContains text "ORIGINAL_MATCH_SCORE:" = true)
    (h2 : pyContains text "MODIFIED_CV:" = false) :
    parse_gemini_response text =
      { modified_cv := ""
        original_match_score := "N/A"
        modified_match_score := "N/A"
        changes_summary := DEFAULT_SUMMARY } := by
  have hparts : pyContains (pySplitGet1 text "ORIGINAL_MATCH_SCORE:") "MODIFIED_CV:" = false :=
    pyContains_splitGet1_false text "ORIGINAL_MATCH_SCORE:" "MODIFIED_CV:" h2
  have e2 : ¬ (pyContains (pySplitGet1 text "ORIGINAL_MATCH_SCORE:") "MODIFIED_CV:" = true) := by
    rw [hparts]; exact Bool.false_ne_true
  simp only [parse_gemini_response, parse_sections]
  rw [if_pos h1, if_neg e2]
  simp [clean_score_NA]

/-- Witness for C9 on a response carrying only the score marker. -/
theorem parse_score_marker_only_discards_witness :
    parse_gemini_response "ORIGINAL_MATCH_SCORE: 88 and nothing else" =
      { modified_cv := ""
        original_match_score := "N/A"
        modified_match_score := "N/A"
        changes_summary := DEFAULT_SUMMARY } :=
  parse_score_marker_only_discards "ORIGINAL_MATCH_SCORE: 88 and nothing else"
    (by decide) (by decide)

/-- C10: Result-shape mismatch with the web layer. Every successful
tailoring call returns the dict with exactly the four keys `modified_cv`,
`original_match_score`, `modified_match_score`, `changes_summary` (the
summary always non-empty); the key `match_score` is absent, so the
`/process` handler's unconditional read of `result['match_score']`
(src/app.py line 124) finds no value. -/
theorem result_shape_match_score_missing (response_text : String) :
    (modify_cv_return (parse_gemini_response response_text)).map Prod.fst =
      ["modified_cv", "original_match_score", "modified_match_score", "changes_summary"]
    ∧ (parse_gemini_response response_text).changes_summary ≠ ""
    ∧ process_reads_match_score (modify_cv_return (parse_gemini_response response_text)) = none := by
  refine ⟨rfl, ?_, rfl⟩
  simp only [parse_gemini_response]
  by_cases hb : ((parse_sections response_text).2.2.2 != "") = true
  · rw [if_pos hb]
    exact bne_iff_ne.mp hb
  · rw [if_neg hb]
    intro hc
    exact (by decide : DEFAULT_SUMMARY ≠ "") hc
